import Mathlib

/-!
Verification of the Quick Kick Mogul idle/clicker football-management game
(`src/App.tsx`). The game state, the league-tier catalog, the match
resolver, the match-timer state machine, the roster mutations, the
progression gate and the localStorage persistence layer are embedded as
executable Lean definitions, and the spec's testable properties are
proved (or refuted) against them. Money and the other JS numbers are
modelled as exact rationals; the sampled opponent strength and the
randomly generated recruit candidate are passed as explicit parameters.
-/

namespace QuickKick

/-- Player position enum, from the `Player` interface in `src/App.tsx`. -/
inductive Position
  | FWD
  | MID
  | DEF
  | GK
deriving DecidableEq, Repr

/-- The `Player` interface of `src/App.tsx`: id, name, overall skill
rating, market value and position. -/
structure Player where
  id : String
  name : String
  overall : ℕ
  value : ℕ
  position : Position
deriving DecidableEq, Repr

/-- The `LeagueTier` interface of `src/App.tsx`. The
`opponentOverallRange` record is flattened into `minFactor`/`maxFactor`. -/
structure LeagueTier where
  level : ℕ
  name : String
  baseWinReward : ℚ
  overallMultiplier : ℚ
  minFactor : ℚ
  maxFactor : ℚ
  promotionThresholdOverall : ℕ
  promotionCost : ℚ
deriving DecidableEq, Repr

/-- The static `LEAGUE_TIERS` catalog of `src/App.tsx`, verbatim. -/
def LEAGUE_TIERS : List LeagueTier :=
  [ { level := 1, name := "Amateur League", baseWinReward := 100,
      overallMultiplier := 0.5, minFactor := 0.4, maxFactor := 0.7,
      promotionThresholdOverall := 400, promotionCost := 5000 },
    { level := 2, name := "Regional League", baseWinReward := 500,
      overallMultiplier := 1.0, minFactor := 0.6, maxFactor := 0.9,
      promotionThresholdOverall := 800, promotionCost := 20000 },
    { level := 3, name := "National League", baseWinReward := 2000,
      overallMultiplier := 2.0, minFactor := 0.8, maxFactor := 1.1,
      promotionThresholdOverall := 1500, promotionCost := 100000 },
    { level := 4, name := "Continental Championship", baseWinReward := 5000,
      overallMultiplier := 3.0, minFactor := 1.0, maxFactor := 1.3,
      promotionThresholdOverall := 2500, promotionCost := 500000 } ]

/-- `MATCH_DURATION_SECONDS = 5 * 60` from `src/App.tsx`. -/
def MATCH_DURATION_SECONDS : ℤ := 5 * 60

/-- The full component state of `App`: the eight persisted fields plus the
derived `matchProgress` percentage and `timers`, an explicit count of the
live `setInterval` timers held by `matchIntervalRef` (0 or 1 in every
reachable state). -/
structure GameState where
  money : ℚ
  clickPower : ℕ
  stadiumCapacity : ℕ
  passiveIncomePerSecond : ℚ
  players : List Player
  matchInProgress : Bool
  matchTimeLeft : ℤ
  matchProgress : ℚ
  currentLeagueLevel : ℕ
  timers : ℕ
deriving DecidableEq, Repr

/-- `players.reduce((sum, p) => sum + p.overall, 0)` — the team's summed
overall, as computed in `finishMatch` and in the promote handler. -/
def teamOverall (ps : List Player) : ℕ :=
  ps.foldl (fun sum p => sum + p.overall) 0

/-- `LEAGUE_TIERS.find(tier => tier.level === lvl)`. -/
def findTier (lvl : ℕ) : Option LeagueTier :=
  LEAGUE_TIERS.find? (fun t => t.level == lvl)

/-- `handleTicketSaleClick`: adds `clickPower` to `money`. -/
def handleTicketSaleClick (s : GameState) : GameState :=
  { s with money := s.money + s.clickPower }

/-- `buyClickPowerUpgrade`: cost `10 * clickPower`; on success deducts the
cost and increments `clickPower`. -/
def buyClickPowerUpgrade (s : GameState) : GameState :=
  let cost : ℚ := 10 * s.clickPower
  if cost ≤ s.money then
    { s with money := s.money - cost, clickPower := s.clickPower + 1 }
  else s

/-- `buyStadiumUpgrade`: cost `50 * (stadiumCapacity / 100)`; on success
deducts the cost, adds 100 capacity and recomputes the passive income as
`newCapacity / 100`. -/
def buyStadiumUpgrade (s : GameState) : GameState :=
  let cost : ℚ := 50 * ((s.stadiumCapacity : ℚ) / 100)
  if cost ≤ s.money then
    let newCapacity := s.stadiumCapacity + 100
    { s with money := s.money - cost,
             stadiumCapacity := newCapacity,
             passiveIncomePerSecond := (newCapacity : ℚ) / 100 }
  else s

/-- `recruitNewPlayerInSlot(slotIndex)`. The randomly generated
replacement candidate is passed explicitly as `newPlayer`. Out-of-bounds
slots are a no-op (`if (!oldPlayer) return`); on success the candidate's
value is deducted and the slot's player is replaced in place. -/
def recruitNewPlayerInSlot (slotIndex : ℕ) (newPlayer : Player)
    (s : GameState) : GameState :=
  match s.players[slotIndex]? with
  | none => s
  | some _ =>
    if (newPlayer.value : ℚ) ≤ s.money then
      { s with money := s.money - newPlayer.value,
               players := s.players.set slotIndex newPlayer }
    else s

/-- `trainPlayerInSlot(slotIndex)`: cost `overall * 5`; on success deducts
the cost and bumps the slot's player by `overall += 1`, `value += 100`. -/
def trainPlayerInSlot (slotIndex : ℕ) (s : GameState) : GameState :=
  match s.players[slotIndex]? with
  | none => s
  | some playerToTrain =>
    let trainCost : ℚ := playerToTrain.overall * 5
    if trainCost ≤ s.money then
      { s with money := s.money - trainCost,
               players := s.players.set slotIndex
                 { playerToTrain with
                     overall := playerToTrain.overall + 1,
                     value := playerToTrain.value + 100 } }
    else s

/-- The four match outcome buckets of `finishMatch`. -/
inductive MatchOutcome
  | DOMINANT_WIN
  | WIN
  | DRAW
  | LOSS
deriving DecidableEq, Repr

/-- The ordered-threshold outcome classification of `finishMatch`
(first match wins). -/
def classifyMatch (team opp : ℕ) : MatchOutcome :=
  if (team : ℚ) > opp * 1.1 then .DOMINANT_WIN
  else if (team : ℚ) > opp * 0.9 then .WIN
  else if (team : ℚ) > opp * 0.7 then .DRAW
  else .LOSS

/-- The `matchBonus` computed in `finishMatch`, branch by branch. -/
def matchBonus (tier : LeagueTier) (team opp : ℕ) : ℚ :=
  if (team : ℚ) > opp * 1.1 then
    tier.baseWinReward * 1.5 + team * tier.overallMultiplier * 1.5
  else if (team : ℚ) > opp * 0.9 then
    tier.baseWinReward + team * tier.overallMultiplier
  else if (team : ℚ) > opp * 0.7 then
    tier.baseWinReward * 0.5 + team * tier.overallMultiplier * 0.5
  else
    tier.baseWinReward * 0.1 + team * tier.overallMultiplier * 0.1

/-- The reward scale factor per outcome bucket (1.5 / 1.0 / 0.5 / 0.1),
used to state the spec's factored form of the reward formula. -/
def outcomeScale : MatchOutcome → ℚ
  | .DOMINANT_WIN => 1.5
  | .WIN => 1
  | .DRAW => 0.5
  | .LOSS => 0.1

/-- `finishMatch`: clears the running flag, resets `matchTimeLeft` to the
full duration, clears the interval, and — when the squad is non-empty and
the current tier exists — adds the match bonus to `money`. The sampled
`opponentOverall` is passed explicitly. -/
def finishMatch (opponentOverall : ℕ) (s : GameState) : GameState :=
  let s1 := { s with matchInProgress := false,
                     matchTimeLeft := MATCH_DURATION_SECONDS,
                     timers := s.timers - 1 }
  let team := teamOverall s.players
  if team = 0 then s1
  else
    match findTier s.currentLeagueLevel with
    | none => s1
    | some currentTier =>
      { s1 with money := s1.money + matchBonus currentTier team opponentOverall }

/-- One firing of the match interval callback installed by `startMatch`
(and by the resume path of the load effect): decrements the remaining
time, recomputes the progress percentage from the new time, and on
reaching 0 invokes `finishMatch` (whose queued `setMatchTimeLeft(300)` is
applied after the updater's `return 0`, so the committed remaining time
ends at the full duration). -/
def matchTick (opponentOverall : ℕ) (s : GameState) : GameState :=
  let newTime := s.matchTimeLeft - 1
  let s1 := { s with matchProgress :=
    ((MATCH_DURATION_SECONDS - newTime : ℤ) : ℚ) / (MATCH_DURATION_SECONDS : ℚ) * 100 }
  if newTime ≤ 0 then finishMatch opponentOverall { s1 with matchTimeLeft := 0 }
  else { s1 with matchTimeLeft := newTime }

/-- `startMatch`: rejected when the squad is empty; a silent no-op when a
match is already in progress; otherwise sets the running flag, resets the
clock to the full duration and the progress to 0, and installs the
interval. -/
def startMatch (s : GameState) : GameState :=
  if s.players.length = 0 then s
  else if s.matchInProgress then s
  else { s with matchInProgress := true,
                matchTimeLeft := MATCH_DURATION_SECONDS,
                matchProgress := 0,
                timers := s.timers + 1 }

/-- One firing of the passive-income interval: adds
`passiveIncomePerSecond` to `money`. -/
def passiveTick (s : GameState) : GameState :=
  { s with money := s.money + s.passiveIncomePerSecond }

/-- The promote button's onClick handler: looks up the NEXT tier
(`LEAGUE_TIERS.find(t => t.level === currentLeagueLevel + 1)`); rejects
when it does not exist, when `money < nextLeague.promotionCost`, or when
the summed overall is below `nextLeague.promotionThresholdOverall`; on
success deducts the next tier's cost and increments the level. -/
def promoteLeague (s : GameState) : GameState :=
  match findTier (s.currentLeagueLevel + 1) with
  | none => s
  | some nextLeague =>
    if s.money < nextLeague.promotionCost then s
    else if teamOverall s.players < nextLeague.promotionThresholdOverall then s
    else { s with money := s.money - nextLeague.promotionCost,
                  currentLeagueLevel := s.currentLeagueLevel + 1 }

/-- The shape of the parsed `quickKickMogulSave` JSON blob: every field of
the serialized game state, each optional on read (a missing JSON key reads
as `undefined`). -/
structure SavedState where
  money : Option ℚ
  clickPower : Option ℕ
  stadiumCapacity : Option ℕ
  passiveIncomePerSecond : Option ℚ
  players : Option (List Player)
  matchInProgress : Option Bool
  matchTimeLeft : Option ℤ
  currentLeagueLevel : Option ℕ
deriving DecidableEq, Repr

/-- JS `parsed.field || default` for a rational field: a missing key or a
value of 0 (falsy) falls back to the default. -/
def orFalsyQ (v : Option ℚ) (d : ℚ) : ℚ :=
  match v with
  | none => d
  | some x => if x = 0 then d else x

/-- JS `parsed.field || default` for a natural-number field. -/
def orFalsyN (v : Option ℕ) (d : ℕ) : ℕ :=
  match v with
  | none => d
  | some x => if x = 0 then d else x

/-- JS `parsed.field || default` for an integer field. -/
def orFalsyZ (v : Option ℤ) (d : ℤ) : ℤ :=
  match v with
  | none => d
  | some x => if x = 0 then d else x

/-- The save effect: `JSON.stringify` of the eight-field game-state
record (numbers round-trip exactly through JSON). -/
def saveGame (s : GameState) : SavedState :=
  { money := some s.money,
    clickPower := some s.clickPower,
    stadiumCapacity := some s.stadiumCapacity,
    passiveIncomePerSecond := some s.passiveIncomePerSecond,
    players := some s.players,
    matchInProgress := some s.matchInProgress,
    matchTimeLeft := some s.matchTimeLeft,
    currentLeagueLevel := some s.currentLeagueLevel }

/-- The load effect's resume test
`parsedState.matchInProgress && parsedState.matchTimeLeft > 0`, on the
raw parsed values (a missing `matchTimeLeft` compares as false). -/
def isTimerResumed (p : SavedState) : Bool :=
  p.matchInProgress.getD false &&
    (match p.matchTimeLeft with
     | some t => decide (0 < t)
     | none => false)

/-- The state produced by mounting with a present, parseable blob: the
lazy `useState` initial values for `currentLeagueLevel`/`players` plus the load
effect's setters, each with its `|| default` fallback; when the resume
test passes, the progress bar is recomputed from the persisted remaining
time and the interval is reinstalled, otherwise the progress stays at its
initial 0 and no timer exists. `freshLineup` is the roster
`generateInitialLineup()` would produce. -/
def applyLoad (p : SavedState) (freshLineup : List Player) : GameState :=
  { money := orFalsyQ p.money 0,
    clickPower := orFalsyN p.clickPower 1,
    stadiumCapacity := orFalsyN p.stadiumCapacity 100,
    passiveIncomePerSecond := orFalsyQ p.passiveIncomePerSecond 0,
    players := p.players.getD freshLineup,
    matchInProgress := p.matchInProgress.getD false,
    matchTimeLeft := orFalsyZ p.matchTimeLeft MATCH_DURATION_SECONDS,
    matchProgress :=
      if isTimerResumed p then
        ((MATCH_DURATION_SECONDS - p.matchTimeLeft.getD 0 : ℤ) : ℚ)
          / (MATCH_DURATION_SECONDS : ℚ) * 100
      else 0,
    currentLeagueLevel := orFalsyN p.currentLeagueLevel 1,
    timers := if isTimerResumed p then 1 else 0 }

/-- The state produced by mounting with no saved blob: the `useState`
defaults, except that the load effect's else-branch sets
`passiveIncomePerSecond = stadiumCapacity / 100` with the default
capacity 100. -/
def freshState (lineup : List Player) : GameState :=
  { money := 0,
    clickPower := 1,
    stadiumCapacity := 100,
    passiveIncomePerSecond := (100 : ℚ) / 100,
    players := lineup,
    matchInProgress := false,
    matchTimeLeft := MATCH_DURATION_SECONDS,
    matchProgress := 0,
    currentLeagueLevel := 1,
    timers := 0 }

/-- The three shapes a stored blob can take on mount: absent, present but
unparseable, or parsed into a `SavedState`. -/
inductive LoadInput
  | absent
  | corrupt
  | parsed (p : SavedState)
deriving DecidableEq, Repr

/-- The whole mount-time rehydration. `JSON.parse` of an unparseable blob
throws from the `useState` initial-value thunks and the load effect with no
try/catch anywhere, modelled as `Except.error`. -/
def loadGame : LoadInput → List Player → Except Unit GameState
  | .corrupt, _ => .error ()
  | .absent, lineup => .ok (freshState lineup)
  | .parsed p, lineup => .ok (applyLoad p lineup)

/-- The states reachable from a fresh (no-save) mount by the game's
actions. The sampled opponent strength and the generated recruit
candidate are universally quantified, a superset of the sampler's actual
ranges; the match tick only fires while a match is in progress, since
`finishMatch` clears the interval. -/
inductive Reachable : GameState → Prop
  | init (lineup : List Player) : Reachable (freshState lineup)
  | click {s} : Reachable s → Reachable (handleTicketSaleClick s)
  | clickPowerUp {s} : Reachable s → Reachable (buyClickPowerUpgrade s)
  | stadiumUp {s} : Reachable s → Reachable (buyStadiumUpgrade s)
  | train {s} (i : ℕ) : Reachable s → Reachable (trainPlayerInSlot i s)
  | recruit {s} (i : ℕ) (np : Player) :
      Reachable s → Reachable (recruitNewPlayerInSlot i np s)
  | start {s} : Reachable s → Reachable (startMatch s)
  | tick {s} (opp : ℕ) : Reachable s → s.matchInProgress = true →
      Reachable (matchTick opp s)
  | passive {s} : Reachable s → Reachable (passiveTick s)
  | promote {s} : Reachable s → Reachable (promoteLeague s)

/-- The numeric fields that the `|| default` load fallbacks could clobber
are never falsy in a reachable state. -/
def GoodState (s : GameState) : Prop :=
  1 ≤ s.clickPower ∧ 100 ≤ s.stadiumCapacity ∧
    1 ≤ s.currentLeagueLevel ∧ 1 ≤ s.matchTimeLeft

theorem one_le_duration : (1 : ℤ) ≤ MATCH_DURATION_SECONDS := by decide

theorem goodState_freshState (lineup : List Player) :
    GoodState (freshState lineup) :=
  ⟨le_refl 1, le_refl 100, le_refl 1, one_le_duration⟩

theorem goodState_matchTick (opp : ℕ) (s : GameState) (h : GoodState s) :
    GoodState (matchTick opp s) := by
  obtain ⟨h1, h2, h3, h4⟩ := h
  unfold matchTick finishMatch
  dsimp only
  split
  · split
    · exact ⟨h1, h2, h3, one_le_duration⟩
    · split
      · exact ⟨h1, h2, h3, one_le_duration⟩
      · exact ⟨h1, h2, h3, one_le_duration⟩
  · refine ⟨h1, h2, h3, ?_⟩
    dsimp only
    omega

theorem goodState_reachable (s : GameState) (h : Reachable s) :
    GoodState s := by
  induction h with
  | init lineup => exact goodState_freshState lineup
  | click _ ih => exact ih
  | clickPowerUp _ ih =>
    obtain ⟨h1, h2, h3, h4⟩ := ih
    unfold buyClickPowerUpgrade
    dsimp only
    split
    · exact ⟨h1.trans (Nat.le_succ _), h2, h3, h4⟩
    · exact ⟨h1, h2, h3, h4⟩
  | stadiumUp _ ih =>
    obtain ⟨h1, h2, h3, h4⟩ := ih
    unfold buyStadiumUpgrade
    dsimp only
    split
    · exact ⟨h1, h2.trans (Nat.le_add_right _ _), h3, h4⟩
    · exact ⟨h1, h2, h3, h4⟩
  | train i _ ih =>
    obtain ⟨h1, h2, h3, h4⟩ := ih
    unfold trainPlayerInSlot
    dsimp only
    split
    · exact ⟨h1, h2, h3, h4⟩
    · split
      · exact ⟨h1, h2, h3, h4⟩
      · exact ⟨h1, h2, h3, h4⟩
  | recruit i np _ ih =>
    obtain ⟨h1, h2, h3, h4⟩ := ih
    unfold recruitNewPlayerInSlot
    split
    · exact ⟨h1, h2, h3, h4⟩
    · split
      · exact ⟨h1, h2, h3, h4⟩
      · exact ⟨h1, h2, h3, h4⟩
  | start _ ih =>
    obtain ⟨h1, h2, h3, h4⟩ := ih
    unfold startMatch
    split
    · exact ⟨h1, h2, h3, h4⟩
    · split
      · exact ⟨h1, h2, h3, h4⟩
      · exact ⟨h1, h2, h3, one_le_duration⟩
  | tick opp _ _ ih => exact goodState_matchTick opp _ ih
  | passive _ ih => exact ih
  | promote _ ih =>
    obtain ⟨h1, h2, h3, h4⟩ := ih
    unfold promoteLeague
    split
    · exact ⟨h1, h2, h3, h4⟩
    · split
      · exact ⟨h1, h2, h3, h4⟩
      · split
        · exact ⟨h1, h2, h3, h4⟩
        · exact ⟨h1, h2, h3.trans (Nat.le_succ _), h4⟩

theorem oppScale_chain (opp : ℕ) :
    ((opp : ℚ) * 0.7 ≤ opp * 0.9) ∧ ((opp : ℚ) * 0.9 ≤ opp * 1.1) := by
  have h : (0 : ℚ) ≤ (opp : ℚ) := Nat.cast_nonneg opp
  constructor <;> nlinarith

theorem classify_iffs (team opp : ℕ) :
    (classifyMatch team opp = .DOMINANT_WIN ↔ (team : ℚ) > opp * 1.1) ∧
    (classifyMatch team opp = .WIN ↔
      ¬((team : ℚ) > opp * 1.1) ∧ (team : ℚ) > opp * 0.9) ∧
    (classifyMatch team opp = .DRAW ↔
      ¬((team : ℚ) > opp * 0.9) ∧ (team : ℚ) > opp * 0.7) ∧
    (classifyMatch team opp = .LOSS ↔ ¬((team : ℚ) > opp * 0.7)) := by
  obtain ⟨ha, hb⟩ := oppScale_chain opp
  by_cases h1 : (team : ℚ) > (opp : ℚ) * 1.1 <;>
    by_cases h2 : (team : ℚ) > (opp : ℚ) * 0.9 <;>
      by_cases h3 : (team : ℚ) > (opp : ℚ) * 0.7 <;>
        first
          | (exfalso; linarith)
          | (refine ⟨?_, ?_, ?_, ?_⟩ <;> simp [classifyMatch, h1, h2, h3])

theorem bonus_factored (tier : LeagueTier) (team opp : ℕ) :
    matchBonus tier team opp =
      outcomeScale (classifyMatch team opp) *
        (tier.baseWinReward + team * tier.overallMultiplier) := by
  by_cases h1 : (team : ℚ) > (opp : ℚ) * 1.1 <;>
    by_cases h2 : (team : ℚ) > (opp : ℚ) * 0.9 <;>
      by_cases h3 : (team : ℚ) > (opp : ℚ) * 0.7 <;>
        simp [matchBonus, classifyMatch, outcomeScale, h1, h2, h3] <;> ring

/-- The strict quality order on outcomes
(DOMINANT_WIN > WIN > DRAW > LOSS), as a rank. -/
def rankOutcome : MatchOutcome → ℕ
  | .LOSS => 0
  | .DRAW => 1
  | .WIN => 2
  | .DOMINANT_WIN => 3

/-- A concrete player used in witness states. -/
def exPlayer (ov : ℕ) : Player :=
  { id := "p1", name := "Ex A", overall := ov, value := ov * 100,
    position := Position.FWD }

/-- A concrete 7-man roster (the fixed lineup size) summing to 420 overall. -/
def exLineup : List Player :=
  [exPlayer 60, exPlayer 60, exPlayer 60, exPlayer 60, exPlayer 60,
   exPlayer 60, exPlayer 60]

/-- A tier-1 state with 5000 money and a 420-overall squad, the exact
configuration of the spec's Scenario C. -/
def exC1 : GameState :=
  { money := 5000, clickPower := 1, stadiumCapacity := 100,
    passiveIncomePerSecond := 1, players := exLineup,
    matchInProgress := false, matchTimeLeft := 300, matchProgress := 0,
    currentLeagueLevel := 1, timers := 0 }

/-- C1: Starting from currentLeagueLevel = 1 with a roster whose summed
overall is 420 and money = 5000, the claim says promoteLeague succeeds,
reaching level 2 with money 0. It does not: the handler checks
`nextLeague.promotionCost` (tier 2's 20000) and
`nextLeague.promotionThresholdOverall` (tier 2's 800), not tier 1's
5000/400, so the call is rejected for insufficient money and the state is
unchanged. -/
theorem promote_from_level_one_rejected_at_5000 :
    teamOverall exC1.players = 420 ∧ exC1.money = 5000 ∧
    exC1.currentLeagueLevel = 1 ∧
    (promoteLeague exC1).currentLeagueLevel = 1 ∧
    (promoteLeague exC1).money = 5000 ∧
    promoteLeague exC1 = exC1 := by decide

/-- C1 (amended): Starting from currentLeagueLevel = 1 with a roster
whose summed overall is at least 800 and money = 20000 (the NEXT tier's
threshold and cost), promoteLeague succeeds, after which
currentLeagueLevel = 2 and money = 0. -/
theorem promote_from_level_one_succeeds_at_20000 (s : GameState)
    (hl : s.currentLeagueLevel = 1)
    (hov : 800 ≤ teamOverall s.players)
    (hm : s.money = 20000) :
    (promoteLeague s).currentLeagueLevel = 2 ∧ (promoteLeague s).money = 0 := by
  unfold promoteLeague
  rw [hl, hm]
  have hft : findTier (1 + 1) =
      some { level := 2, name := "Regional League", baseWinReward := 500,
             overallMultiplier := 1.0, minFactor := 0.6, maxFactor := 0.9,
             promotionThresholdOverall := 800, promotionCost := 20000 } := by
    rfl
  rw [hft]
  dsimp only
  rw [if_neg (by norm_num), if_neg (by omega)]
  exact ⟨rfl, by norm_num⟩

/-- A tier-1 state meeting the code's actual promotion requirements:
summed overall 800 and money 20000. -/
def exPromote : GameState :=
  { money := 20000, clickPower := 1, stadiumCapacity := 100,
    passiveIncomePerSecond := 1,
    players := [exPlayer 200, exPlayer 200, exPlayer 200, exPlayer 200],
    matchInProgress := false, matchTimeLeft := 300, matchProgress := 0,
    currentLeagueLevel := 1, timers := 0 }

theorem promote_from_level_one_succeeds_at_20000_witness :
    (promoteLeague exPromote).currentLeagueLevel = 2 ∧
    (promoteLeague exPromote).money = 0 :=
  promote_from_level_one_succeeds_at_20000 exPromote rfl (by decide) rfl

/-- C6: Whenever the promote handler rejects — no next tier exists (the
hypothesis is vacuous then), money below the next tier's cost, or team
overall below its threshold — the whole state is returned unchanged:
the rejection has no effect at all. -/
theorem promote_rejected_leaves_state_unchanged (s : GameState)
    (h : ∀ t, findTier (s.currentLeagueLevel + 1) = some t →
        s.money < t.promotionCost ∨
          teamOverall s.players < t.promotionThresholdOverall) :
    promoteLeague s = s := by
  unfold promoteLeague
  cases hft : findTier (s.currentLeagueLevel + 1) with
  | none => rfl
  | some t =>
    dsimp only
    rcases h t hft with hm | ho
    · rw [if_pos hm]
    · by_cases hm2 : s.money < t.promotionCost
      · rw [if_pos hm2]
      · rw [if_neg hm2, if_pos ho]

theorem promote_rejected_leaves_state_unchanged_witness :
    promoteLeague exC1 = exC1 := by
  apply promote_rejected_leaves_state_unchanged
  intro t ht
  have hft : findTier (exC1.currentLeagueLevel + 1) =
      some { level := 2, name := "Regional League", baseWinReward := 500,
             overallMultiplier := 1.0, minFactor := 0.6, maxFactor := 0.9,
             promotionThresholdOverall := 800, promotionCost := 20000 } := by
    rfl
  rw [hft] at ht
  rw [← Option.some.inj ht]
  left
  show (5000 : ℚ) < 20000
  norm_num

/-- C10: Calling startMatch while a match is already in progress is a
silent no-op: the returned state is the input state, every field
included, and the timer count is untouched (no second interval). -/
theorem startMatch_in_progress_noop (s : GameState)
    (h : s.matchInProgress = true) :
    startMatch s = s := by
  unfold startMatch
  by_cases hl : s.players.length = 0
  · rw [if_pos hl]
  · rw [if_neg hl, if_pos h]

/-- A concrete mid-match state (200 seconds remaining, one live timer). -/
def exRunning : GameState :=
  { money := 0, clickPower := 1, stadiumCapacity := 100,
    passiveIncomePerSecond := 1, players := exLineup,
    matchInProgress := true, matchTimeLeft := 200, matchProgress := 0,
    currentLeagueLevel := 1, timers := 1 }

theorem startMatch_in_progress_noop_witness :
    startMatch exRunning = exRunning :=
  startMatch_in_progress_noop exRunning rfl

/-- C7: Holding the opponent overall fixed, a larger team overall never
yields a strictly worse outcome category, the categories being ordered
LOSS < DRAW < WIN < DOMINANT_WIN by `rankOutcome`. -/
theorem match_outcome_monotone_in_team_overall (opp t1 t2 : ℕ) (h : t1 ≤ t2) :
    rankOutcome (classifyMatch t1 opp) ≤ rankOutcome (classifyMatch t2 opp) := by
  have hc : ((t1 : ℚ)) ≤ (t2 : ℚ) := by exact_mod_cast h
  unfold classifyMatch
  by_cases h1 : (t1 : ℚ) > (opp : ℚ) * 1.1 <;>
    by_cases h2 : (t1 : ℚ) > (opp : ℚ) * 0.9 <;>
      by_cases h3 : (t1 : ℚ) > (opp : ℚ) * 0.7 <;>
        by_cases g1 : (t2 : ℚ) > (opp : ℚ) * 1.1 <;>
          by_cases g2 : (t2 : ℚ) > (opp : ℚ) * 0.9 <;>
            by_cases g3 : (t2 : ℚ) > (opp : ℚ) * 0.7 <;>
              simp [h1, h2, h3, g1, g2, g3, rankOutcome] <;> linarith

theorem match_outcome_monotone_in_team_overall_witness :
    rankOutcome (classifyMatch 50 40) ≤ rankOutcome (classifyMatch 60 40) :=
  match_outcome_monotone_in_team_overall 40 50 60 (by norm_num)

/-- C2: For every positive team overall, every sampled opponent overall
and every tier: the outcome is classified by the ordered thresholds
1.1 / 0.9 / 0.7 with the first match winning (stated as an exact
characterization of each bucket), the bonus is
`(baseWinReward + teamOverall * overallMultiplier)` scaled by
1.5 / 1.0 / 0.5 / 0.1 respectively, `finishMatch` adds exactly that bonus
to money, and in particular team 100 against opponent 50 is a
DOMINANT_WIN worth `baseWinReward * 1.5 + 100 * overallMultiplier * 1.5`. -/
theorem match_resolution_thresholds_and_rewards (team opp : ℕ)
    (tier : LeagueTier) (hpos : 0 < team) :
    (classifyMatch team opp = .DOMINANT_WIN ↔ (team : ℚ) > opp * 1.1) ∧
    (classifyMatch team opp = .WIN ↔
      ¬((team : ℚ) > opp * 1.1) ∧ (team : ℚ) > opp * 0.9) ∧
    (classifyMatch team opp = .DRAW ↔
      ¬((team : ℚ) > opp * 0.9) ∧ (team : ℚ) > opp * 0.7) ∧
    (classifyMatch team opp = .LOSS ↔ ¬((team : ℚ) > opp * 0.7)) ∧
    matchBonus tier team opp =
      outcomeScale (classifyMatch team opp) *
        (tier.baseWinReward + team * tier.overallMultiplier) ∧
    (∀ s : GameState, teamOverall s.players = team →
        findTier s.currentLeagueLevel = some tier →
        (finishMatch opp s).money = s.money + matchBonus tier team opp) ∧
    classifyMatch 100 50 = .DOMINANT_WIN ∧
    matchBonus tier 100 50 =
      tier.baseWinReward * 1.5 + 100 * tier.overallMultiplier * 1.5 := by
  obtain ⟨i1, i2, i3, i4⟩ := classify_iffs team opp
  refine ⟨i1, i2, i3, i4, bonus_factored tier team opp, ?_, ?_, ?_⟩
  · intro s hteam htier
    unfold finishMatch
    dsimp only
    rw [hteam, htier]
    rw [if_neg (by omega : ¬ team = 0)]
  · unfold classifyMatch
    norm_num
  · unfold matchBonus
    norm_num

/-- The first league tier, used as the concrete tier in witnesses. -/
def exTier : LeagueTier :=
  { level := 1, name := "Amateur League", baseWinReward := 100,
    overallMultiplier := 0.5, minFactor := 0.4, maxFactor := 0.7,
    promotionThresholdOverall := 400, promotionCost := 5000 }

theorem match_resolution_thresholds_and_rewards_witness :
    classifyMatch 100 50 = .DOMINANT_WIN ∧
    matchBonus exTier 100 50 =
      exTier.baseWinReward * 1.5 + 100 * exTier.overallMultiplier * 1.5 := by
  have h := match_resolution_thresholds_and_rewards 100 50 exTier (by norm_num)
  exact ⟨h.2.2.2.2.2.2.1, h.2.2.2.2.2.2.2⟩

/-- C5: While a match is running, a tick with more than one second left
decrements `matchTimeLeft` by exactly 1, keeps the match running and sets
`matchProgress = (DURATION - newTime) / DURATION * 100`; `matchProgress`
is 0 when a match starts; the tick at which the remaining time reaches 0
sets `matchProgress = 100` and ends the match (the committed remaining
time is then reset to the full duration by `finishMatch`, so it never
dips below 0); and no reachable state has a negative `matchTimeLeft`. -/
theorem match_timer_tick_properties :
    (∀ (s : GameState) (opp : ℕ), s.matchInProgress = true →
       1 < s.matchTimeLeft →
       (matchTick opp s).matchTimeLeft = s.matchTimeLeft - 1 ∧
       (matchTick opp s).matchInProgress = true ∧
       (matchTick opp s).matchProgress =
         ((MATCH_DURATION_SECONDS - (s.matchTimeLeft - 1) : ℤ) : ℚ)
           / (MATCH_DURATION_SECONDS : ℚ) * 100) ∧
    (∀ s : GameState, s.players.length ≠ 0 → s.matchInProgress = false →
       (startMatch s).matchProgress = 0 ∧
       (startMatch s).matchTimeLeft = MATCH_DURATION_SECONDS) ∧
    (∀ (s : GameState) (opp : ℕ), s.matchInProgress = true →
       s.matchTimeLeft = 1 →
       (matchTick opp s).matchProgress = 100 ∧
       (matchTick opp s).matchInProgress = false) ∧
    (∀ s : GameState, Reachable s → 0 ≤ s.matchTimeLeft) := by
  refine ⟨?_, ?_, ?_, ?_⟩
  · intro s opp hp ht
    unfold matchTick
    dsimp only
    rw [if_neg (by omega)]
    exact ⟨rfl, hp, rfl⟩
  · intro s h0 hf
    unfold startMatch
    rw [if_neg h0, if_neg (by simp [hf])]
    exact ⟨rfl, rfl⟩
  · intro s opp hp ht
    have h100 : ((MATCH_DURATION_SECONDS - ((1 : ℤ) - 1) : ℤ) : ℚ)
        / (MATCH_DURATION_SECONDS : ℚ) * 100 = 100 := by
      norm_num [MATCH_DURATION_SECONDS]
    unfold matchTick finishMatch
    dsimp only
    rw [ht]
    rw [if_pos (by norm_num)]
    split
    · exact ⟨h100, rfl⟩
    · split
      · exact ⟨h100, rfl⟩
      · exact ⟨h100, rfl⟩
  · intro s h
    obtain ⟨h1, h2, h3, h4⟩ := goodState_reachable s h
    omega

/-- The mid-match witness state with exactly one second remaining. -/
def exRunningLast : GameState :=
  { exRunning with matchTimeLeft := 1 }

theorem match_timer_tick_properties_witness :
    (matchTick 50 exRunning).matchTimeLeft = 199 ∧
    (startMatch (freshState exLineup)).matchProgress = 0 ∧
    (matchTick 50 exRunningLast).matchProgress = 100 ∧
    0 ≤ (freshState exLineup).matchTimeLeft := by
  have h := match_timer_tick_properties
  refine ⟨?_, ?_, ?_, h.2.2.2 _ (Reachable.init exLineup)⟩
  · exact ((h.1 exRunning 50 rfl (by decide)).1).trans (by decide)
  · exact (h.2.1 (freshState exLineup) (by decide) rfl).1
  · exact (h.2.2.1 exRunningLast 50 rfl rfl).1

/-- C8: Roster length is constant across every train and every recruit
call; training (at any slot, successful or not) never decreases any
player's overall or value; and a successful train at slot `i` — funds
`overall * 5` available — deducts exactly that cost from money, bumps the
targeted player by `overall + 1` and `value + 100`, and leaves every
other slot untouched. -/
theorem train_recruit_roster_invariants (s : GameState) (i : ℕ)
    (p : Player)
    (hp : s.players[i]? = some p)
    (hm : (p.overall : ℚ) * 5 ≤ s.money) :
    (∀ j, ((trainPlayerInSlot j s).players).length = s.players.length) ∧
    (∀ (j : ℕ) (c : Player),
        ((recruitNewPlayerInSlot j c s).players).length = s.players.length) ∧
    (∀ (k j : ℕ) (q q' : Player), s.players[j]? = some q →
        ((trainPlayerInSlot k s).players)[j]? = some q' →
        q.overall ≤ q'.overall ∧ q.value ≤ q'.value) ∧
    (trainPlayerInSlot i s).money = s.money - (p.overall : ℚ) * 5 ∧
    ((trainPlayerInSlot i s).players)[i]? =
      some { p with overall := p.overall + 1, value := p.value + 100 } ∧
    (∀ j, j ≠ i → ((trainPlayerInSlot i s).players)[j]? = s.players[j]?) := by
  have hlen : ∀ j, ((trainPlayerInSlot j s).players).length = s.players.length := by
    intro j
    unfold trainPlayerInSlot
    cases s.players[j]? with
    | none => rfl
    | some q =>
      dsimp only
      split
      · exact List.length_set s.players j _
      · rfl
  have hi : i < s.players.length := by
    rw [List.getElem?_eq_some] at hp
    exact hp.1
  have htrain : trainPlayerInSlot i s =
      { s with money := s.money - (p.overall : ℚ) * 5,
               players := s.players.set i
                 { p with overall := p.overall + 1, value := p.value + 100 } } := by
    unfold trainPlayerInSlot
    rw [hp]
    dsimp only
    rw [if_pos hm]
  refine ⟨hlen, ?_, ?_, ?_, ?_, ?_⟩
  · intro j c
    unfold recruitNewPlayerInSlot
    cases s.players[j]? with
    | none => rfl
    | some q =>
      dsimp only
      split
      · exact List.length_set s.players j _
      · rfl
  · intro k j q q' hq hq'
    unfold trainPlayerInSlot at hq'
    cases hk : s.players[k]? with
    | none =>
      rw [hk] at hq'
      dsimp only at hq'
      rw [hq] at hq'
      obtain rfl := Option.some.inj hq'
      exact ⟨le_refl _, le_refl _⟩
    | some pk =>
      rw [hk] at hq'
      dsimp only at hq'
      by_cases hc : (pk.overall : ℚ) * 5 ≤ s.money
      · rw [if_pos hc] at hq'
        by_cases hjk : k = j
        · subst hjk
          rw [List.getElem?_set_self (by
              rw [List.getElem?_eq_some] at hq
              exact hq.1)] at hq'
          obtain rfl := Option.some.inj hq'
          obtain rfl := Option.some.inj (hk.symm.trans hq)
          exact ⟨Nat.le_succ _, Nat.le_add_right _ _⟩
        · rw [List.getElem?_set_ne hjk] at hq'
          rw [hq] at hq'
          obtain rfl := Option.some.inj hq'
          exact ⟨le_refl _, le_refl _⟩
      · rw [if_neg hc] at hq'
        rw [hq] at hq'
        obtain rfl := Option.some.inj hq'
        exact ⟨le_refl _, le_refl _⟩
  · rw [htrain]
  · rw [htrain]
    exact List.getElem?_set_self hi
  · intro j hj
    rw [htrain]
    exact List.getElem?_set_ne (fun hij => hj hij.symm)

theorem train_recruit_roster_invariants_witness :
    ((trainPlayerInSlot 0 exC1).players).length = 7 ∧
    ((recruitNewPlayerInSlot 0 (exPlayer 70) exC1).players).length = 7 ∧
    (trainPlayerInSlot 0 exC1).money = 4700 ∧
    ((trainPlayerInSlot 0 exC1).players)[0]? =
      some { exPlayer 60 with overall := 61, value := 6100 } ∧
    ((trainPlayerInSlot 0 exC1).players)[1]? = exC1.players[1]? := by
  have h := train_recruit_roster_invariants exC1 0 (exPlayer 60) (by decide)
    (by norm_num [exPlayer, exC1])
  refine ⟨(h.1 0).trans (by decide), (h.2.1 0 (exPlayer 70)).trans (by decide),
    h.2.2.2.1.trans (by norm_num [exPlayer, exC1]), ?_, h.2.2.2.2.2 1 (by norm_num)⟩
  have h5 := h.2.2.2.2.1
  rw [h5]
  decide

/-- C4: For every reachable state, writing the save blob and rehydrating
from it preserves every persisted field: money, clickPower,
stadiumCapacity, passiveIncomePerSecond, players, matchInProgress,
matchTimeLeft and currentLeagueLevel. The `|| default` fallbacks on read
only clobber falsy (zero) values, and the reachability invariant
`goodState_reachable` shows the four fields with nonzero defaults are
never zero, while the remaining fields have zero as their own default. -/
theorem save_load_round_trip (s : GameState) (fresh : List Player)
    (h : Reachable s) :
    (applyLoad (saveGame s) fresh).money = s.money ∧
    (applyLoad (saveGame s) fresh).clickPower = s.clickPower ∧
    (applyLoad (saveGame s) fresh).stadiumCapacity = s.stadiumCapacity ∧
    (applyLoad (saveGame s) fresh).passiveIncomePerSecond =
      s.passiveIncomePerSecond ∧
    (applyLoad (saveGame s) fresh).players = s.players ∧
    (applyLoad (saveGame s) fresh).matchInProgress = s.matchInProgress ∧
    (applyLoad (saveGame s) fresh).matchTimeLeft = s.matchTimeLeft ∧
    (applyLoad (saveGame s) fresh).currentLeagueLevel = s.currentLeagueLevel := by
  obtain ⟨h1, h2, h3, h4⟩ := goodState_reachable s h
  unfold applyLoad saveGame orFalsyQ orFalsyN orFalsyZ
  dsimp only
  refine ⟨?_, ?_, ?_, ?_, rfl, rfl, ?_, ?_⟩
  · split
    · next hz => exact hz.symm
    · rfl
  · split
    · next hz => omega
    · rfl
  · split
    · next hz => omega
    · rfl
  · split
    · next hz => exact hz.symm
    · rfl
  · split
    · next hz => omega
    · rfl
  · split
    · next hz => omega
    · rfl

theorem save_load_round_trip_witness :
    (applyLoad (saveGame (freshState exLineup)) exLineup).clickPower =
      (freshState exLineup).clickPower ∧
    (applyLoad (saveGame (freshState exLineup)) exLineup).matchTimeLeft =
      (freshState exLineup).matchTimeLeft ∧
    (applyLoad (saveGame (freshState exLineup)) exLineup).players =
      (freshState exLineup).players := by
  have h := save_load_round_trip (freshState exLineup) exLineup
    (Reachable.init exLineup)
  exact ⟨h.2.1, h.2.2.2.2.2.2.1, h.2.2.2.2.1⟩

/-- A save blob recording an in-flight match with 0 seconds remaining. -/
def exBlobStuck : SavedState :=
  { money := some 0, clickPower := some 1, stadiumCapacity := some 100,
    passiveIncomePerSecond := some 0, players := some exLineup,
    matchInProgress := some true, matchTimeLeft := some 0,
    currentLeagueLevel := some 1 }

/-- C3: the claim's second half fails. With persisted
`matchInProgress = true` and `matchTimeLeft = 0`, rehydration does not
make the match immediately eligible for completion: the `|| DURATION`
fallback restarts `matchTimeLeft` at the full 300 seconds, the match is
still flagged as in progress, and no interval is installed (`timers = 0`),
so no tick can ever complete it. -/
theorem load_zero_time_left_not_completable :
    (applyLoad exBlobStuck exLineup).matchInProgress = true ∧
    (applyLoad exBlobStuck exLineup).matchTimeLeft = MATCH_DURATION_SECONDS ∧
    (applyLoad exBlobStuck exLineup).timers = 0 := by decide

/-- C3 (amended): on restart with persisted `matchInProgress = true`:
with `matchTimeLeft = t > 0` the timer is resumed from exactly `t` (not
the full duration); with `matchTimeLeft = 0` the remaining time falls
back to the full duration with the match still flagged in progress and no
timer installed, so the match never completes; with `matchTimeLeft < 0`
the negative value is kept and likewise no timer is installed. -/
theorem load_resume_behavior :
    (∀ (p : SavedState) (fresh : List Player) (t : ℤ),
       p.matchInProgress = some true → p.matchTimeLeft = some t → 0 < t →
       (applyLoad p fresh).matchTimeLeft = t ∧
       (applyLoad p fresh).timers = 1 ∧
       (applyLoad p fresh).matchInProgress = true) ∧
    (∀ (p : SavedState) (fresh : List Player),
       p.matchInProgress = some true → p.matchTimeLeft = some 0 →
       (applyLoad p fresh).matchTimeLeft = MATCH_DURATION_SECONDS ∧
       (applyLoad p fresh).timers = 0 ∧
       (applyLoad p fresh).matchInProgress = true) ∧
    (∀ (p : SavedState) (fresh : List Player) (t : ℤ),
       p.matchInProgress = some true → p.matchTimeLeft = some t → t < 0 →
       (applyLoad p fresh).matchTimeLeft = t ∧
       (applyLoad p fresh).timers = 0) := by
  refine ⟨?_, ?_, ?_⟩
  · intro p fresh t h1 h2 h3
    have hr : isTimerResumed p = true := by
      unfold isTimerResumed
      rw [h1, h2]
      simp [h3]
    refine ⟨?_, ?_, ?_⟩
    · simp [applyLoad, orFalsyZ, h2]
      omega
    · simp [applyLoad, hr]
    · simp [applyLoad, h1]
  · intro p fresh h1 h2
    have hr : isTimerResumed p = false := by
      unfold isTimerResumed
      rw [h1, h2]
      simp
    refine ⟨?_, ?_, ?_⟩
    · simp [applyLoad, orFalsyZ, h2]
    · simp [applyLoad, hr]
    · simp [applyLoad, h1]
  · intro p fresh t h1 h2 h3
    have hr : isTimerResumed p = false := by
      unfold isTimerResumed
      rw [h1, h2]
      simp
      omega
    refine ⟨?_, ?_⟩
    · simp [applyLoad, orFalsyZ, h2]
      omega
    · simp [applyLoad, hr]

/-- A save blob recording an in-flight match with 120 seconds remaining. -/
def exBlobMid : SavedState :=
  { exBlobStuck with matchTimeLeft := some 120 }

/-- A save blob recording an in-flight match with -5 seconds remaining. -/
def exBlobNeg : SavedState :=
  { exBlobStuck with matchTimeLeft := some (-5) }

theorem load_resume_behavior_witness :
    ((applyLoad exBlobMid exLineup).matchTimeLeft = 120 ∧
      (applyLoad exBlobMid exLineup).timers = 1 ∧
      (applyLoad exBlobMid exLineup).matchInProgress = true) ∧
    ((applyLoad exBlobStuck exLineup).matchTimeLeft = MATCH_DURATION_SECONDS ∧
      (applyLoad exBlobStuck exLineup).timers = 0 ∧
      (applyLoad exBlobStuck exLineup).matchInProgress = true) ∧
    ((applyLoad exBlobNeg exLineup).matchTimeLeft = -5 ∧
      (applyLoad exBlobNeg exLineup).timers = 0) := by
  have h := load_resume_behavior
  exact ⟨h.1 exBlobMid exLineup 120 rfl rfl (by norm_num),
    h.2.1 exBlobStuck exLineup rfl rfl,
    h.2.2 exBlobNeg exLineup (-5) rfl rfl (by norm_num)⟩

/-- A save blob with every field missing. -/
def emptyBlob : SavedState :=
  { money := none, clickPower := none, stadiumCapacity := none,
    passiveIncomePerSecond := none, players := none,
    matchInProgress := none, matchTimeLeft := none,
    currentLeagueLevel := none }

/-- C9: two parts of the claim fail. A blob that fails to parse is NOT
treated as "no save": `JSON.parse` is called with no try/catch in the
`useState` initial-value thunks and the load effect, so the parse exception
propagates (a fatal error), modelled as `Except.error`. And with an
absent blob the mount does not leave `passiveIncomePerSecond` at the
claimed default 0: the load effect's else-branch sets it to
`stadiumCapacity / 100 = 1`. -/
theorem load_defaults_counterexample :
    loadGame LoadInput.corrupt exLineup = Except.error () ∧
    loadGame LoadInput.absent exLineup = Except.ok (freshState exLineup) ∧
    (freshState exLineup).passiveIncomePerSecond = 1 := by
  refine ⟨rfl, rfl, ?_⟩
  norm_num [freshState]

/-- C9 (amended): a missing individual field in a parsed blob falls back
to its named default (money 0, clickPower 1, stadiumCapacity 100,
passiveIncomePerSecond 0, currentLeagueLevel 1, matchInProgress false,
matchTimeLeft = DURATION, freshly generated roster) and parsed loads are
never fatal; an absent blob likewise yields the defaults except that
`passiveIncomePerSecond` ends at `stadiumCapacity / 100 = 1`; an
unparseable blob is a fatal parse error, not a fallback to defaults. -/
theorem load_defaults_amended :
    (∀ lineup : List Player,
       loadGame LoadInput.corrupt lineup = Except.error ()) ∧
    (∀ lineup : List Player,
       loadGame LoadInput.absent lineup = Except.ok (freshState lineup) ∧
       (freshState lineup).money = 0 ∧
       (freshState lineup).clickPower = 1 ∧
       (freshState lineup).stadiumCapacity = 100 ∧
       (freshState lineup).passiveIncomePerSecond = 1 ∧
       (freshState lineup).players = lineup ∧
       (freshState lineup).matchInProgress = false ∧
       (freshState lineup).matchTimeLeft = MATCH_DURATION_SECONDS ∧
       (freshState lineup).currentLeagueLevel = 1) ∧
    (∀ lineup : List Player,
       loadGame (LoadInput.parsed emptyBlob) lineup =
         Except.ok (applyLoad emptyBlob lineup) ∧
       (applyLoad emptyBlob lineup).money = 0 ∧
       (applyLoad emptyBlob lineup).clickPower = 1 ∧
       (applyLoad emptyBlob lineup).stadiumCapacity = 100 ∧
       (applyLoad emptyBlob lineup).passiveIncomePerSecond = 0 ∧
       (applyLoad emptyBlob lineup).players = lineup ∧
       (applyLoad emptyBlob lineup).matchInProgress = false ∧
       (applyLoad emptyBlob lineup).matchTimeLeft = MATCH_DURATION_SECONDS ∧
       (applyLoad emptyBlob lineup).currentLeagueLevel = 1) := by
  refine ⟨fun _ => rfl, fun lineup => ?_, fun lineup => ?_⟩
  · exact ⟨rfl, rfl, rfl, rfl, by norm_num [freshState], rfl, rfl, rfl, rfl⟩
  · exact ⟨rfl, rfl, rfl, rfl, rfl, rfl, rfl, rfl, rfl⟩

end QuickKick
